import Mathlib

/-!
Verification of the assisi-python communication core (`assisipy/lure.py`,
`assisipy/fish.py`) against its natural-language specification.

The Python code is shallowly embedded: protobuf message values become Lean
structures over `ℚ` (floating-point fields are modelled as rationals, which is
faithful for the ordering/clamping logic the claims are about), Python list
indexing and the `sorted` builtin are modelled explicitly, fallible Python code
returns `Except PyErr`, and the background receiver loop becomes an explicit
step function on a state record.  Wall-clock timestamps (`time.time()`) are not
modelled: log records keep their tag and numeric fields only.
-/

/-- Python runtime errors that the embedded fragments can raise. -/
inductive PyErr
  | indexError
  | typeError
  | nameError
  deriving DecidableEq, Repr

/-- Python list subscription `l[i]`: nonnegative indices in bounds, negative
indices wrap from the end, anything else raises `IndexError`.  Protobuf
repeated fields delegate subscription to this behaviour. -/
def pyListGet {α : Type} (l : List α) (i : Int) : Except PyErr α :=
  if h : 0 ≤ i ∧ i.toNat < l.length then .ok (l.get ⟨i.toNat, h.2⟩)
  else if h2 : i < 0 ∧ (-i).toNat ≤ l.length then
    .ok (l.get ⟨l.length - (-i).toNat, by omega⟩)
  else .error .indexError

/-- One insertion step of the model of Python's `sorted` builtin. -/
def pyInsert (x : ℚ) : List ℚ → List ℚ
  | [] => [x]
  | y :: ys => if x ≤ y then x :: y :: ys else y :: pyInsert x ys

/-- Model of Python's `sorted` builtin on a list of numbers: returns an
ascending reordering.  `lure.py` / `fish.py` use `sorted([0, x, 1])[1]` as a
clamp to `[0, 1]`. -/
def pySorted (l : List ℚ) : List ℚ := l.foldr pyInsert []

/-! ## Protobuf message types (from the `msg` package)

Only the fields the client code reads/writes are carried; `float` fields are
`ℚ`, repeated fields are lists.  A freshly-constructed message has empty
repeated fields and zero scalars, matching protobuf defaults. -/

/-- `dev_msgs_pb2.RangeArray`: IR proximity readings of a Casu (`lure.py`). -/
structure RangeArray where
  range : List ℚ
  raw_value : List ℚ
  deriving DecidableEq, Repr

/-- `dev_msgs_pb2.ObjectArray`: object-detection readings of a Fish
(`fish.py`): per-sensor ranges, per-sensor detected-object types, and the
configured maximum sensor range. -/
structure ObjectArray where
  range : List ℚ
  type : List Int
  max_range : ℚ
  deriving DecidableEq, Repr

/-- One `dev_msgs_pb2.VibrationReading`. -/
structure VibrationReading where
  freq : ℚ
  amplitude : ℚ
  deriving DecidableEq, Repr

/-- `dev_msgs_pb2.VibrationReadingArray`. -/
structure VibrationReadingArray where
  reading : List VibrationReading
  deriving DecidableEq, Repr

/-- `dev_msgs_pb2.VibrationSetpoint`. -/
structure VibrationSetpoint where
  freq : ℚ
  amplitude : ℚ
  deriving DecidableEq, Repr

/-- `base_msgs_pb2.Color`. -/
structure Color where
  red : ℚ
  green : ℚ
  blue : ℚ
  deriving DecidableEq, Repr

/-- `base_msgs_pb2.ColorStamped` (header dropped). -/
structure ColorStamped where
  color : Color
  deriving DecidableEq, Repr

/-- `dev_msgs_pb2.DiffDrive`. -/
structure DiffDrive where
  vel_left : ℚ
  vel_right : ℚ
  deriving DecidableEq, Repr

/-- `base_msgs_pb2.PoseStamped`, reduced to the fields `fish.py` reads. -/
structure PoseStamped where
  x : ℚ
  y : ℚ
  yaw : ℚ
  deriving DecidableEq, Repr

/-- One pixel of a `dev_msgs_pb2.CircularCameraImage`. -/
structure Pixel where
  red : ℚ
  green : ℚ
  blue : ℚ
  deriving DecidableEq, Repr

/-- `dev_msgs_pb2.CircularCameraImage`: pixel colours and per-pixel depth. -/
structure CircularCameraImage where
  image : List Pixel
  zbuffer : List ℚ
  deriving DecidableEq, Repr

/-! ## Frames -/

/-- A decoded frame payload.  The spec treats per-kind serialization as an
opaque encode/decode capability, so payloads are carried in decoded, typed
form. -/
inductive Payload
  | rangeArray (a : RangeArray)
  | objectArray (a : ObjectArray)
  | vibArray (a : VibrationReadingArray)
  | vib (v : VibrationSetpoint)
  | colorStamped (c : ColorStamped)
  | diffDrive (d : DiffDrive)
  | pose (p : PoseStamped)
  | camera (c : CircularCameraImage)
  | str (s : String)
  deriving DecidableEq, Repr

/-- One four-part bus frame `[name, device, command, data]`.  For peer-mesh
message frames `[neighbor, 'Message', sender, text]` the same four slots are
used in order. -/
structure Frame where
  name : String
  dev : String
  cmd : String
  payload : Payload
  deriving DecidableEq, Repr

/-- A value returned by a sensor getter: Python lets the same variable hold a
scalar reading or (for the `ARRAY` sentinel) the full list of readings. -/
inductive RVal
  | scalar (q : ℚ)
  | arr (qs : List ℚ)
  deriving DecidableEq, Repr

/-- The object slot returned by `Fish.get_object_with_range`: `None`, one
object type, or the full list of object types. -/
inductive ObjVal
  | nothing
  | scalar (t : Int)
  | arr (ts : List Int)
  deriving DecidableEq, Repr

namespace Fish

/-- `fish.py`: `OBJECT_SIDE_RIGHT = 0`. -/
def OBJECT_SIDE_RIGHT : Int := 0

/-- `fish.py`: `LEFT_EYE = 6`. -/
def LEFT_EYE : Int := 6

/-- `fish.py`: `RIGHT_EYE = 7`. -/
def RIGHT_EYE : Int := 7

/-- `fish.py`: `ARRAY = 10000`, the all-sensors sentinel. -/
def ARRAY : Int := 10000

/-- `Fish.get_range` (fish.py lines 185-204), as a function of the stored
`ObjectArray` (read under the lock) and the sensor id.  After the indexed (or
`ARRAY`) lookup, the Python 2 comparison `range < 0.000001` is applied: for a
scalar it compares numerically; when `range` is a list (the `ARRAY` case) the
Python 2 cross-type rule makes `list < float` false, so the list passes
through uncorrected. -/
def get_range (st : ObjectArray) (id : Int) : Except PyErr RVal := do
  let range ←
    if st.range ≠ [] then
      if id = ARRAY then pure (RVal.arr st.range)
      else RVal.scalar <$> pyListGet st.range (id - OBJECT_SIDE_RIGHT)
    else pure (RVal.scalar (-1))
  match range with
  | .scalar q => if q < 1/1000000 then pure (RVal.scalar 10) else pure (RVal.scalar q)
  | .arr qs => pure (RVal.arr qs)

/-- `Fish.get_object_with_range` (fish.py lines 206-227): returns the
`(object, range)` pair for sensor `id`, substituting `max_range` for
(near-)zero range readings. -/
def get_object_with_range (st : ObjectArray) (id : Int) :
    Except PyErr (ObjVal × RVal) := do
  if st.range ≠ [] then
    if id = ARRAY then
      let r := st.range.map (fun v => if v < 1/1000000 then st.max_range else v)
      pure (ObjVal.arr st.type, RVal.arr r)
    else do
      let r ← pyListGet st.range (id - OBJECT_SIDE_RIGHT)
      let r := if r < 1/1000000 then st.max_range else r
      let obj ← pyListGet st.type (id - OBJECT_SIDE_RIGHT)
      pure (ObjVal.scalar obj, RVal.scalar r)
  else
    pure (ObjVal.nothing, RVal.scalar (-1))

end Fish

namespace Lure

/-- `lure.py`: `ARRAY = 10000`, the all-sensors sentinel. -/
def ARRAY : Int := 10000

/-- `Lure.get_range` (lure.py lines 229-242), as a function of the stored
`RangeArray`: plain indexed lookup with a `-1` no-data sentinel; there is no
`ARRAY` branch and no near-zero correction in this getter. -/
def get_range (st : RangeArray) (id : Int) : Except PyErr RVal :=
  if st.range ≠ [] then RVal.scalar <$> pyListGet st.range id
  else pure (RVal.scalar (-1))

/-- `Lure.get_ir_raw_value` (lure.py lines 244-256): raw IR reading for one
sensor, the whole list for `ARRAY`, `-1` when no data has arrived. -/
def get_ir_raw_value (st : RangeArray) (id : Int) : Except PyErr RVal :=
  if st.raw_value ≠ [] then
    if id = ARRAY then pure (RVal.arr st.raw_value)
    else RVal.scalar <$> pyListGet st.raw_value id
  else pure (RVal.scalar (-1))

end Lure

/-! ## Receiver loop state (Lure) -/

/-- One entry of the peer-message inbox `self.__msg_queue`. -/
structure PeerMsg where
  sender : String
  data : String
  deriving DecidableEq, Repr

/-- One row written by `__write_to_log`: the string tag and the numeric
fields.  The `time.time()` timestamp column is not modelled. -/
structure LogRecord where
  tag : String
  values : List ℚ
  deriving DecidableEq, Repr

/-- The mutable state of one `Lure` object that the receiver loop and the
public API touch: the latched connection flag, the stop flag, the two stored
reading messages, the peer-message inbox, plus the observable output channels
(printed lines and log rows). -/
structure LureState where
  name : String
  connected : Bool
  stop : Bool
  ir_range_readings : RangeArray
  acc_readings : VibrationReadingArray
  msg_queue : List PeerMsg
  stdout : List String
  log : List LogRecord
  log_enabled : Bool
  deriving DecidableEq, Repr

namespace Lure

/-- `Lure.__write_to_log`: appends a row when logging is enabled. -/
def write_to_log (st : LureState) (r : LogRecord) : LureState :=
  if st.log_enabled then { st with log := st.log ++ [r] } else st

/-- `ParseFromString` into a `RangeArray` target.  Payloads are carried in
typed form (the spec's opaque decode capability); a payload of any other kind
is a decode failure. -/
def parseRangeArray : Payload → Except PyErr RangeArray
  | .rangeArray a => .ok a
  | _ => .error .typeError

/-- `ParseFromString` into a `VibrationReadingArray` target. -/
def parseVibArray : Payload → Except PyErr VibrationReadingArray
  | .vibArray a => .ok a
  | _ => .error .typeError

/-- The `(dev, cmd)` dispatch section of one iteration of
`Lure.__update_readings` (lure.py lines 158-184), acting on the state after
the connected latch was set.  Note: an unknown command under device `Acc` has
no `else` branch in the source and is silently ignored. -/
def dispatch (st : LureState) (f : Frame) : Except PyErr LureState :=
  if f.dev = "IR" then
      if f.cmd = "Ranges" then do
        let a ← parseRangeArray f.payload
        let st := { st with ir_range_readings := a }
        let st := write_to_log st ⟨"ir_range", a.range⟩
        pure (write_to_log st ⟨"ir_raw", a.raw_value⟩)
      else
        pure { st with stdout := st.stdout ++
          ["Unknown command " ++ f.cmd ++ " for " ++ st.name] }
    else if f.dev = "Acc" then
      if f.cmd = "Measurements" then do
        let a ← parseVibArray f.payload
        let st := { st with acc_readings := a }
        if a.reading ≠ [] then do
          let r0 ← pyListGet a.reading 0
          let r1 ← pyListGet a.reading 1
          let r2 ← pyListGet a.reading 2
          let r3 ← pyListGet a.reading 3
          let st := write_to_log st ⟨"acc_freq", [r0.freq, r1.freq, r2.freq, r3.freq]⟩
          pure (write_to_log st
            ⟨"acc_amp", [r0.amplitude, r1.amplitude, r2.amplitude, r3.amplitude]⟩)
        else
          pure st
      else
        pure st
    else
      pure { st with stdout := st.stdout ++
        ["Unknown device " ++ f.dev ++ " for " ++ st.name] }

/-- One iteration of `Lure.__update_readings` (lure.py lines 155-194) after a
frame `f` arrives, with `peer` the result of the non-blocking peer-mesh poll
(`none` models the `ZMQError` no-message case).  Sets the connected latch,
dispatches on `(dev, cmd)`, and drains the peer poll into the inbox. -/
def update_step (st : LureState) (f : Frame) (peer : Option PeerMsg) :
    Except PyErr LureState := do
  let st := { st with connected := true }
  let st ← dispatch st f
  match peer with
  | some m => pure { st with msg_queue := st.msg_queue ++ [m] }
  | none => pure st

/-- The `while not self.__stop` receiver loop of `Lure.__update_readings`, run
over a finite schedule of incoming frames (each paired with the result of that
iteration's peer-mesh poll). -/
def run_loop (st : LureState) : List (Frame × Option PeerMsg) → Except PyErr LureState
  | [] => .ok st
  | (f, p) :: rest =>
    if st.stop then .ok st
    else do
      let st' ← update_step st f p
      run_loop st' rest

end Lure

/-! ## Receiver loop state (Fish) -/

/-- The mutable state of one `Fish` object. -/
structure FishState where
  name : String
  connected : Bool
  object_readings : ObjectArray
  encoder_readings : DiffDrive
  true_pose : PoseStamped
  vel_setpoints : DiffDrive
  light_readings : ColorStamped
  color_setpoint : ColorStamped
  left_eye : CircularCameraImage
  right_eye : CircularCameraImage
  stdout : List String
  deriving DecidableEq, Repr

namespace Fish

/-- Typed `ParseFromString` into an `ObjectArray` target. -/
def parseObjectArray : Payload → Except PyErr ObjectArray
  | .objectArray a => .ok a
  | _ => .error .typeError

/-- Typed `ParseFromString` into a `DiffDrive` target. -/
def parseDiffDrive : Payload → Except PyErr DiffDrive
  | .diffDrive d => .ok d
  | _ => .error .typeError

/-- Typed `ParseFromString` into a `PoseStamped` target. -/
def parsePose : Payload → Except PyErr PoseStamped
  | .pose p => .ok p
  | _ => .error .typeError

/-- Typed `ParseFromString` into a `ColorStamped` target. -/
def parseColorStamped : Payload → Except PyErr ColorStamped
  | .colorStamped c => .ok c
  | _ => .error .typeError

/-- Typed `ParseFromString` into a `CircularCameraImage` target. -/
def parseCamera : Payload → Except PyErr CircularCameraImage
  | .camera c => .ok c
  | _ => .error .typeError

/-- One iteration of `Fish.__update_readings` (fish.py lines 122-182): sets
the connected latch and dispatches on `(dev, cmd)`.  Note: the dispatch chain
has no final `else`, so a frame with an unrecognized device is silently
ignored (no print). -/
def update_step (st : FishState) (f : Frame) : Except PyErr FishState := do
  let st := { st with connected := true }
  if f.dev = "Object" then
    if f.cmd = "Ranges" then do
      let a ← parseObjectArray f.payload
      pure { st with object_readings := a }
    else
      pure { st with stdout := st.stdout ++
        ["Unknown command " ++ f.cmd ++ " for " ++ st.name] }
  else if f.dev = "Base" then
    if f.cmd = "Enc" then do
      let d ← parseDiffDrive f.payload
      pure { st with encoder_readings := d }
    else if f.cmd = "GroundTruth" then do
      let p ← parsePose f.payload
      pure { st with true_pose := p }
    else if f.cmd = "VelRef" then do
      let d ← parseDiffDrive f.payload
      pure { st with vel_setpoints := d }
    else
      pure { st with stdout := st.stdout ++
        ["Unknown command " ++ f.cmd ++ " for Fish " ++ st.name] }
  else if f.dev = "Light" then
    if f.cmd = "Readings" then do
      let c ← parseColorStamped f.payload
      pure { st with light_readings := c }
    else
      pure { st with stdout := st.stdout ++
        ["Unknown command " ++ f.cmd ++ " for Fish " ++ st.name] }
  else if f.dev = "Color" then
    if f.cmd = "ColorVal" then do
      let c ← parseColorStamped f.payload
      pure { st with color_setpoint := c }
    else
      pure { st with stdout := st.stdout ++
        ["Unknown command " ++ f.cmd ++ " for Fish " ++ st.name] }
  else if f.dev = "Eye" then
    if f.cmd = "Left" then do
      let c ← parseCamera f.payload
      pure { st with left_eye := c }
    else if f.cmd = "Right" then do
      let c ← parseCamera f.payload
      pure { st with right_eye := c }
    else
      pure { st with stdout := st.stdout ++
        ["Unknown command " ++ f.cmd ++ " for Fish " ++ st.name] }
  else
    pure st

/-- The `while True` receiver loop of `Fish.__update_readings`, run over a
finite schedule of incoming frames. -/
def run_loop (st : FishState) : List Frame → Except PyErr FishState
  | [] => .ok st
  | f :: rest => do
    let st' ← update_step st f
    run_loop st' rest

end Fish

/-! ## Actuator setters and shutdown (Lure) -/

/-- The observable effects of one actuator-setter call: published frames,
printed lines, appended log rows. -/
structure PubResult where
  frames : List Frame
  stdout : List String
  log : List LogRecord
  deriving DecidableEq, Repr

namespace Lure

/-- `Lure.set_speaker_vibration` (lure.py lines 273-299): clamps the intensity
to `[0, 100]` and the frequency to `[0, 500]` with a printed notice on each
clamp, then publishes one `Speaker/On` setpoint and logs it. -/
def set_speaker_vibration (name : String) (log_enabled : Bool) (freq intens : ℚ) :
    PubResult :=
  let out1 : List String :=
    if intens < 0 then ["Intensity value limited to 0!"]
    else if intens > 100 then ["Intensity value limited to 100!"]
    else []
  let intens := if intens < 0 then (0 : ℚ) else if intens > 100 then 100 else intens
  let out2 : List String :=
    if freq < 0 then ["Frequency limited to 0!"]
    else if freq > 500 then ["Frequency limited to 500!"]
    else []
  let freq := if freq < 0 then (0 : ℚ) else if freq > 500 then 500 else freq
  { frames := [⟨name, "Speaker", "On", .vib ⟨freq, intens⟩⟩]
    stdout := out1 ++ out2
    log := if log_enabled then [⟨"speaker_freq_pwm", [freq, intens]⟩] else [] }

/-- `Lure.set_motor_vibration` (lure.py lines 302-320): clamps the intensity
to `[0, 100]` and publishes one `VibeMotor/On` setpoint with frequency 0. -/
def set_motor_vibration (name : String) (log_enabled : Bool) (intens : ℚ) :
    PubResult :=
  let out1 : List String :=
    if intens < 0 then ["Motor intens value limited to 0!"]
    else if intens > 100 then ["Motor intens value limited to 100!"]
    else []
  let intens := if intens < 0 then (0 : ℚ) else if intens > 100 then 100 else intens
  { frames := [⟨name, "VibeMotor", "On", .vib ⟨0, intens⟩⟩]
    stdout := out1
    log := if log_enabled then [⟨"vibe_intens", [intens]⟩] else [] }

/-- `Lure.set_light_rgb` (lure.py lines 358-377): clamps each colour channel
to `[0, 1]` via `sorted([0, x, 1])[1]` and publishes one `Light/On` colour. -/
def set_light_rgb (name : String) (log_enabled : Bool) (r g b : ℚ) : PubResult :=
  let r := (pySorted [0, r, 1]).getD 1 0
  let g := (pySorted [0, g, 1]).getD 1 0
  let b := (pySorted [0, b, 1]).getD 1 0
  { frames := [⟨name, "Light", "On", .colorStamped ⟨⟨r, g, b⟩⟩⟩]
    stdout := []
    log := if log_enabled then [⟨"light_ref", [r, g, b]⟩] else [] }

/-- `Lure.set_diagnostic_led_rgb` (lure.py lines 391-411): clamps each colour
channel to `[0, 1]` and publishes one `DiagnosticLed/On` colour. -/
def set_diagnostic_led_rgb (name : String) (log_enabled : Bool) (r g b : ℚ) :
    PubResult :=
  let r := (pySorted [0, r, 1]).getD 1 0
  let g := (pySorted [0, g, 1]).getD 1 0
  let b := (pySorted [0, b, 1]).getD 1 0
  { frames := [⟨name, "DiagnosticLed", "On", .colorStamped ⟨⟨r, g, b⟩⟩⟩]
    stdout := []
    log := if log_enabled then [⟨"dled_ref", [r, g, b]⟩] else [] }

end Lure

namespace Fish

/-- `Fish.set_color` (fish.py lines 241-271): clamps each colour channel to
`[0, 1]` and publishes one `Color/Set` frame (Fish has no logging). -/
def set_color (name : String) (r g b : ℚ) : PubResult :=
  let r := (pySorted [0, r, 1]).getD 1 0
  let g := (pySorted [0, g, 1]).getD 1 0
  let b := (pySorted [0, b, 1]).getD 1 0
  { frames := [⟨name, "Color", "Set", .colorStamped ⟨⟨r, g, b⟩⟩⟩]
    stdout := []
    log := [] }

end Fish

/-- One externally observable event of a sequential API call, in program
order: a published frame, a log row, the write of the stop flag, the join of
the receiver thread, the closing of the log file, a printed line. -/
inductive Event
  | pub (f : Frame)
  | logWrite (r : LogRecord)
  | setStopFlag
  | joinThread
  | closeLog
  | printLine (s : String)
  deriving DecidableEq, Repr

namespace Lure

/-- Event trace of `Lure.vibration_standby` (lure.py lines 342-355): both the
vibration motor and the speaker get an `Off` setpoint, then two log rows. -/
def vibration_standby_events (name : String) (log_enabled : Bool) : List Event :=
  [.pub ⟨name, "VibeMotor", "Off", .vib ⟨0, 0⟩⟩,
   .pub ⟨name, "Speaker", "Off", .vib ⟨0, 0⟩⟩] ++
  (if log_enabled then [.logWrite ⟨"vibe_ref", [0]⟩,
                        .logWrite ⟨"speaker_freq_intens", [0, 0]⟩] else [])

/-- Event trace of `Lure.light_standby` (lure.py lines 379-389). -/
def light_standby_events (name : String) (log_enabled : Bool) : List Event :=
  [.pub ⟨name, "Light", "Off", .colorStamped ⟨⟨0, 0, 0⟩⟩⟩] ++
  (if log_enabled then [.logWrite ⟨"light_ref", [0, 0, 0]⟩] else [])

/-- Event trace of `Lure.diagnostic_led_standby` (lure.py lines 421-431). -/
def diagnostic_led_standby_events (name : String) (log_enabled : Bool) : List Event :=
  [.pub ⟨name, "DiagnosticLed", "Off", .colorStamped ⟨⟨0, 0, 0⟩⟩⟩] ++
  (if log_enabled then [.logWrite ⟨"dled_ref", [0, 0, 0]⟩] else [])

/-- Event trace of `Lure.__cleanup` (lure.py lines 196-205): join the receiver
thread, then close the log file when logging is enabled. -/
def cleanup_events (log_enabled : Bool) : List Event :=
  [.joinThread] ++ (if log_enabled then [.closeLog] else [])

/-- Event trace of `Lure.stop` (lure.py lines 213-227), in program order: all
three standby calls, then the stop-flag write, then cleanup, then the
disconnect notice. -/
def stop_events (name : String) (log_enabled : Bool) : List Event :=
  vibration_standby_events name log_enabled ++
  light_standby_events name log_enabled ++
  diagnostic_led_standby_events name log_enabled ++
  [.setStopFlag] ++
  cleanup_events log_enabled ++
  [.printLine (name ++ " disconnected!")]

end Lure

/-! ## Peer-mesh messaging (Lure) -/

/-- One neighbor record of the RTC file's neighbor table: the neighbor's
physical name and its message-bus address. -/
structure NeighborRec where
  name : String
  address : String
  deriving DecidableEq, Repr

namespace Lure

/-- `Lure.send_message` (lure.py lines 433-443), as a function of the node
name and `self.__neighbors` (`none` models the name-based construction path,
lure.py line 82, which sets `self.__neighbors = None`; `some` holds the RTC
neighbor table as an association list direction to record).  Returns the
success flag together with the frames published on the peer bus.  When the
table is `None`, the Python 2 membership test `direction in None` raises
`TypeError`. -/
def send_message (name : String) (neighbors : Option (List (String × NeighborRec)))
    (direction msg : String) : Except PyErr (Bool × List Frame) :=
  match neighbors with
  | none => .error .typeError
  | some nbrs =>
    match nbrs.find? (fun p => p.1 = direction) with
    | some p => .ok (true, [⟨p.2.name, "Message", name, .str msg⟩])
    | none => .ok (false, [])

/-- The result of `Lure.read_message`: the Python function returns either the
initial empty list (no message pending) or the popped message dictionary with
its attached `label` field. -/
inductive ReadMsgResult
  | emptyList
  | msg (sender data : String) (label : Option String)
  deriving DecidableEq, Repr

/-- `Lure.read_message` (lure.py lines 445-461), as a function of the inbox
`self.__msg_queue` and the physical-to-logical name map: when the inbox is
nonempty, `list.pop()` removes and returns its last element and the logical
label of the sender is attached (`dict.get` with default `None`); the result
is paired with the inbox contents after the call. -/
def read_message (queue : List PeerMsg) (phys_logi_map : List (String × String)) :
    ReadMsgResult × List PeerMsg :=
  match queue.getLast? with
  | none => (.emptyList, queue)
  | some m =>
    (.msg m.sender m.data ((phys_logi_map.find? (fun p => p.1 = m.sender)).map (·.2)),
     queue.dropLast)

end Lure

/-! ## Fish eye pixels -/

/-- A Python value held by a local variable of `Fish.get_pixel`. -/
inductive PyVal
  | int (i : Int)
  | pix (p : Pixel)
  | noneVal
  deriving DecidableEq, Repr

/-- Python name resolution over an explicit local scope: referencing a name
that is not bound raises `NameError`. -/
def lookupVar (env : List (String × PyVal)) (x : String) : Except PyErr PyVal :=
  match env.find? (fun p => p.1 = x) with
  | some p => .ok p.2
  | none => .error .nameError

/-- Attribute access `.red`/`.green`/`.blue` on a resolved value: only a pixel
value has them. -/
def asPixel : PyVal → Except PyErr Pixel
  | .pix p => .ok p
  | _ => .error .typeError

namespace Fish

/-- `Fish.get_pixel` (fish.py lines 321-336), as a function of the two stored
eye images.  The source binds `c = image[index]` but then builds the colour
tuple from `p.red, p.green, p.blue`; the name `p` is never assigned anywhere
in the function, so its resolution against the local scope is modelled
explicitly and fails with `NameError`. -/
def get_pixel (left right : CircularCameraImage) (side index : Int) :
    Except PyErr (Option (ℚ × ℚ × ℚ) × Option ℚ) := do
  if side = LEFT_EYE then do
    let c ← pyListGet left.image index
    let env : List (String × PyVal) :=
      [("side", .int side), ("index", .int index),
       ("colour", .noneVal), ("distance", .noneVal), ("c", .pix c)]
    let pv ← lookupVar env "p"
    let p ← asPixel pv
    let distance ← pyListGet left.zbuffer index
    pure (some (p.red, p.green, p.blue), some distance)
  else if side = RIGHT_EYE then do
    let c ← pyListGet right.image index
    let env : List (String × PyVal) :=
      [("side", .int side), ("index", .int index),
       ("colour", .noneVal), ("distance", .noneVal), ("c", .pix c)]
    let pv ← lookupVar env "p"
    let p ← asPixel pv
    let distance ← pyListGet right.zbuffer index
    pure (some (p.red, p.green, p.blue), some distance)
  else
    pure (none, none)

end Fish

/-! ## Theorems -/

/-- The Python clamp idiom `sorted([0, x, 1])[1]` equals clamping to `[0, 1]`. -/
lemma pySorted_clamp (x : ℚ) : (pySorted [0, x, 1]).getD 1 0 = max 0 (min x 1) := by
  by_cases h1 : x ≤ 1
  · by_cases h0 : (0:ℚ) ≤ x
    · simp [pySorted, pyInsert, h1, h0, min_eq_left h1, max_eq_right h0]
    · simp [pySorted, pyInsert, h1, h0]
      exact le_of_not_le h0
  · simp [pySorted, pyInsert, h1]
    rw [min_eq_right (le_of_not_le h1), max_eq_right zero_le_one]

/-- The Python clamp idiom `if x < 0: x = 0 elif x > hi: x = hi` equals
clamping to `[0, hi]`. -/
lemma pyIfChain_clamp (hi x : ℚ) (hhi : 0 ≤ hi) :
    (if x < 0 then (0:ℚ) else if x > hi then hi else x) = max 0 (min x hi) := by
  split_ifs with h1 h2
  · rw [min_eq_left (by linarith), max_eq_left (by linarith)]
  · rw [min_eq_right (by linarith), max_eq_right (by linarith)]
  · rw [min_eq_left (by linarith), max_eq_right (by linarith)]

/-- C5: every actuator setter publishes exactly the input clamped to its
documented bounds and is total (never raises): each colour channel of
`Lure.set_light_rgb`, `Lure.set_diagnostic_led_rgb` and `Fish.set_color` is
clamped to `[0, 1]`, and `Lure.set_speaker_vibration` clamps the intensity to
`[0, 100]` and the frequency to `[0, 500]`. -/
theorem C5_setpoint_clamping (name : String) (le : Bool) (r g b freq intens : ℚ) :
    (Lure.set_light_rgb name le r g b).frames =
      [⟨name, "Light", "On",
        .colorStamped ⟨⟨max 0 (min r 1), max 0 (min g 1), max 0 (min b 1)⟩⟩⟩] ∧
    (Lure.set_diagnostic_led_rgb name le r g b).frames =
      [⟨name, "DiagnosticLed", "On",
        .colorStamped ⟨⟨max 0 (min r 1), max 0 (min g 1), max 0 (min b 1)⟩⟩⟩] ∧
    (Fish.set_color name r g b).frames =
      [⟨name, "Color", "Set",
        .colorStamped ⟨⟨max 0 (min r 1), max 0 (min g 1), max 0 (min b 1)⟩⟩⟩] ∧
    (Lure.set_speaker_vibration name le freq intens).frames =
      [⟨name, "Speaker", "On",
        .vib ⟨max 0 (min freq 500), max 0 (min intens 100)⟩⟩] := by
  refine ⟨?_, ?_, ?_, ?_⟩
  · simp only [Lure.set_light_rgb]
    rw [pySorted_clamp, pySorted_clamp, pySorted_clamp]
  · simp only [Lure.set_diagnostic_led_rgb]
    rw [pySorted_clamp, pySorted_clamp, pySorted_clamp]
  · simp only [Fish.set_color]
    rw [pySorted_clamp, pySorted_clamp, pySorted_clamp]
  · simp only [Lure.set_speaker_vibration]
    rw [pyIfChain_clamp 100 intens (by norm_num), pyIfChain_clamp 500 freq (by norm_num)]

/-- C10: when the peer-message inbox is nonempty, `Lure.read_message` removes
and returns the most recently appended message (last-in-first-out), attaching
its logical label, and leaves all earlier messages queued; on an empty inbox
it returns the empty result and leaves the queue empty/unchanged. -/
theorem C10_read_message_lifo (q : List PeerMsg) (m : PeerMsg)
    (plm : List (String × String)) :
    Lure.read_message (q ++ [m]) plm =
      (.msg m.sender m.data ((plm.find? (fun p => p.1 = m.sender)).map (·.2)), q) ∧
    Lure.read_message [] plm = (.emptyList, []) := by
  constructor
  · simp [Lure.read_message]
  · rfl

/-- C2 fails as stated: with no neighbor table configured at all (the
name-based construction path leaves `self.__neighbors = None`),
`Lure.send_message` raises `TypeError` on the membership test `direction in
None` instead of returning a failure result. -/
theorem C2_counterexample :
    Lure.send_message "casu-001" none "north" "hello" = .error .typeError ∧
    Lure.send_message "casu-001" none "north" "hello" ≠ .ok (false, []) := by
  exact ⟨rfl, fun h => by simp [Lure.send_message] at h⟩

/-- C2 (amended): when a neighbor table is configured, `Lure.send_message` on
an unconfigured direction returns `False` and publishes nothing, and on a
configured direction publishes exactly one frame addressed to that neighbor's
physical name and returns `True`; but when the node was constructed by name
(no neighbor table, `self.__neighbors = None`) the call raises `TypeError`. -/
theorem C2_neighbor_resolution (name direction msg : String)
    (nbrs : List (String × NeighborRec)) :
    (nbrs.find? (fun p => p.1 = direction) = none →
      Lure.send_message name (some nbrs) direction msg = .ok (false, [])) ∧
    (∀ p, nbrs.find? (fun p => p.1 = direction) = some p →
      Lure.send_message name (some nbrs) direction msg =
        .ok (true, [⟨p.2.name, "Message", name, .str msg⟩])) ∧
    Lure.send_message name none direction msg = .error .typeError := by
  refine ⟨fun h => ?_, fun p h => ?_, rfl⟩
  · simp [Lure.send_message, h]
  · simp [Lure.send_message, h]

/-- Witness for C2: a node `c1` with one neighbor `north ↦ c2`. -/
theorem C2_neighbor_resolution_witness :
    Lure.send_message "c1" (some [("north", ⟨"c2", "tcp-x"⟩)]) "south" "hi"
      = .ok (false, []) ∧
    Lure.send_message "c1" (some [("north", ⟨"c2", "tcp-x"⟩)]) "north" "hi"
      = .ok (true, [⟨"c2", "Message", "c1", .str "hi"⟩]) :=
  ⟨(C2_neighbor_resolution "c1" "south" "hi" [("north", ⟨"c2", "tcp-x"⟩)]).1 (by rfl),
   (C2_neighbor_resolution "c1" "north" "hi" [("north", ⟨"c2", "tcp-x"⟩)]).2.1
     ("north", ⟨"c2", "tcp-x"⟩) (by rfl)⟩

/-- C9: for a side equal to `LEFT_EYE` or `RIGHT_EYE` and a valid pixel index,
`Fish.get_pixel` raises `NameError` (the colour tuple is built from the name
`p`, which is never bound in the function), so it never returns the documented
`(colour, distance)` pair; a side matching neither eye returns `(None, None)`. -/
theorem C9_get_pixel_name_error (left right : CircularCameraImage)
    (side index : Int) (c c2 : Pixel) :
    (side = Fish.LEFT_EYE → pyListGet left.image index = .ok c →
      Fish.get_pixel left right side index = .error .nameError) ∧
    (side = Fish.RIGHT_EYE → pyListGet right.image index = .ok c2 →
      Fish.get_pixel left right side index = .error .nameError) ∧
    (side ≠ Fish.LEFT_EYE → side ≠ Fish.RIGHT_EYE →
      Fish.get_pixel left right side index = .ok (none, none)) := by
  refine ⟨fun h1 h2 => ?_, fun h1 h2 => ?_, fun h1 h2 => ?_⟩
  · subst h1
    simp [Fish.get_pixel, h2, lookupVar, bind, Except.bind]
  · subst h1
    simp [Fish.get_pixel, h2, lookupVar, bind, Except.bind, Fish.LEFT_EYE, Fish.RIGHT_EYE]
  · simp [Fish.get_pixel, h1, h2, pure, Except.pure]

/-- Witness for C9 at concrete eye images and index 0. -/
theorem C9_get_pixel_name_error_witness :
    Fish.get_pixel ⟨[⟨1, 2, 3⟩], [4]⟩ ⟨[⟨5, 6, 7⟩], [8]⟩ Fish.LEFT_EYE 0
      = .error .nameError ∧
    Fish.get_pixel ⟨[⟨1, 2, 3⟩], [4]⟩ ⟨[⟨5, 6, 7⟩], [8]⟩ Fish.RIGHT_EYE 0
      = .error .nameError ∧
    Fish.get_pixel ⟨[⟨1, 2, 3⟩], [4]⟩ ⟨[⟨5, 6, 7⟩], [8]⟩ 0 0 = .ok (none, none) :=
  ⟨(C9_get_pixel_name_error ⟨[⟨1, 2, 3⟩], [4]⟩ ⟨[⟨5, 6, 7⟩], [8]⟩ Fish.LEFT_EYE 0
      ⟨1, 2, 3⟩ ⟨5, 6, 7⟩).1 rfl (by rfl),
   (C9_get_pixel_name_error ⟨[⟨1, 2, 3⟩], [4]⟩ ⟨[⟨5, 6, 7⟩], [8]⟩ Fish.RIGHT_EYE 0
      ⟨1, 2, 3⟩ ⟨5, 6, 7⟩).2.1 rfl (by rfl),
   (C9_get_pixel_name_error ⟨[⟨1, 2, 3⟩], [4]⟩ ⟨[⟨5, 6, 7⟩], [8]⟩ 0 0
      ⟨1, 2, 3⟩ ⟨5, 6, 7⟩).2.2 (by decide) (by decide)⟩

/-- C1 fails as stated: for a raw reading below `1e-6`, `Fish.get_range`
returns the hard-coded constant `10`, not the `max_range` field (here `5`),
and `Lure.get_range` returns the raw reading (here `0.0`) entirely
uncorrected. -/
theorem C1_counterexample :
    Fish.get_range ⟨[0], [3], 5⟩ 0 = .ok (.scalar 10) ∧
    (⟨[0], [3], 5⟩ : ObjectArray).max_range = 5 ∧
    Fish.get_range ⟨[0], [3], 5⟩ 0 ≠ .ok (.scalar 5) ∧
    Lure.get_range ⟨[0], [9]⟩ 0 = .ok (.scalar 0) := by
  refine ⟨?_, rfl, ?_, ?_⟩
  · norm_num [Fish.get_range, Fish.ARRAY, Fish.OBJECT_SIDE_RIGHT, pyListGet,
      bind, Except.bind, pure, Except.pure]
  · norm_num [Fish.get_range, Fish.ARRAY, Fish.OBJECT_SIDE_RIGHT, pyListGet,
      bind, Except.bind, pure, Except.pure]
  · norm_num [Lure.get_range, pyListGet, pure, Except.pure, Functor.map, Except.map]

/-- Evaluation of `Fish.get_range` at a scalar id with readings present. -/
lemma Fish_get_range_scalar (fa : ObjectArray) (id : Int) (q : ℚ)
    (hne : fa.range ≠ []) (hid : id ≠ Fish.ARRAY)
    (hq : pyListGet fa.range (id - Fish.OBJECT_SIDE_RIGHT) = .ok q) :
    Fish.get_range fa id =
      if q < 1/1000000 then .ok (.scalar 10) else .ok (.scalar q) := by
  unfold Fish.get_range
  rw [if_pos hne, if_neg hid, hq]
  rfl

/-- Evaluation of `Fish.get_object_with_range` at a scalar id with readings
present. -/
lemma Fish_get_object_with_range_scalar (fa : ObjectArray) (id : Int)
    (q : ℚ) (tv : Int)
    (hne : fa.range ≠ []) (hid : id ≠ Fish.ARRAY)
    (hq : pyListGet fa.range (id - Fish.OBJECT_SIDE_RIGHT) = .ok q)
    (ht : pyListGet fa.type (id - Fish.OBJECT_SIDE_RIGHT) = .ok tv) :
    Fish.get_object_with_range fa id =
      .ok (.scalar tv, .scalar (if q < 1/1000000 then fa.max_range else q)) := by
  unfold Fish.get_object_with_range
  rw [if_pos hne, if_neg hid]
  simp only [bind, Except.bind, hq, ht, pure, Except.pure]

/-- Evaluation of `Lure.get_range` with readings present: the reading is
returned unchanged. -/
lemma Lure_get_range_scalar (ra : RangeArray) (id : Int) (q : ℚ)
    (hrne : ra.range ≠ []) (hrq : pyListGet ra.range id = .ok q) :
    Lure.get_range ra id = .ok (.scalar q) := by
  unfold Lure.get_range
  rw [if_pos hrne, hrq]
  rfl

/-- C1 (amended): for a scalar id with readings present,
`Fish.get_object_with_range` substitutes the stored `max_range` for a raw
reading below `1e-6` and passes any reading at or above `1e-6` through
unchanged; `Fish.get_range` substitutes the hard-coded constant `10` (not
`max_range`) below `1e-6` and passes other readings through; `Lure.get_range`
applies no correction at all and returns every stored reading unchanged. -/
theorem C1_range_correction (fa : ObjectArray) (ra : RangeArray) (id : Int)
    (q : ℚ) (tv : Int)
    (hne : fa.range ≠ []) (hid : id ≠ Fish.ARRAY)
    (hq : pyListGet fa.range (id - Fish.OBJECT_SIDE_RIGHT) = .ok q)
    (ht : pyListGet fa.type (id - Fish.OBJECT_SIDE_RIGHT) = .ok tv)
    (hrne : ra.range ≠ []) (hrq : pyListGet ra.range id = .ok q) :
    (q < 1/1000000 →
      Fish.get_range fa id = .ok (.scalar 10) ∧
      Fish.get_object_with_range fa id = .ok (.scalar tv, .scalar fa.max_range)) ∧
    (¬ q < 1/1000000 →
      Fish.get_range fa id = .ok (.scalar q) ∧
      Fish.get_object_with_range fa id = .ok (.scalar tv, .scalar q)) ∧
    Lure.get_range ra id = .ok (.scalar q) := by
  refine ⟨fun hlt => ⟨?_, ?_⟩, fun hge => ⟨?_, ?_⟩,
    Lure_get_range_scalar ra id q hrne hrq⟩
  · rw [Fish_get_range_scalar fa id q hne hid hq, if_pos hlt]
  · rw [Fish_get_object_with_range_scalar fa id q tv hne hid hq ht, if_pos hlt]
  · rw [Fish_get_range_scalar fa id q hne hid hq, if_neg hge]
  · rw [Fish_get_object_with_range_scalar fa id q tv hne hid hq ht, if_neg hge]

/-- Witness for C1 (amended): readings `[0.0]` / `[3.5]` with `max_range = 5`. -/
theorem C1_range_correction_witness :
    Fish.get_range ⟨[0], [3], 5⟩ 0 = .ok (.scalar 10) ∧
    Fish.get_object_with_range ⟨[0], [3], 5⟩ 0 = .ok (.scalar 3, .scalar 5) ∧
    Fish.get_range ⟨[7/2], [3], 5⟩ 0 = .ok (.scalar (7/2)) ∧
    Fish.get_object_with_range ⟨[7/2], [3], 5⟩ 0 = .ok (.scalar 3, .scalar (7/2)) ∧
    Lure.get_range ⟨[0], [9]⟩ 0 = .ok (.scalar 0) := by
  have h1 := C1_range_correction ⟨[0], [3], 5⟩ ⟨[0], [9]⟩ 0 0 3
    (by simp) (by decide) (by rfl) (by rfl) (by simp) (by rfl)
  have h2 := C1_range_correction ⟨[7/2], [3], 5⟩ ⟨[7/2], [9]⟩ 0 (7/2) 3
    (by simp) (by decide) (by rfl) (by rfl) (by simp) (by rfl)
  obtain ⟨ha, -, hc⟩ := h1
  obtain ⟨-, hb, -⟩ := h2
  have ha' := ha (by norm_num)
  have hb' := hb (by norm_num)
  exact ⟨ha'.1, ha'.2, hb'.1, hb'.2, hc⟩

/-- C3 fails as stated: with no stored readings, `Fish.get_range` does not
return the `-1` sentinel: the sentinel itself is below `1e-6`, so the
correction hack turns it into `10`. -/
theorem C3_counterexample :
    Fish.get_range ⟨[], [], 10⟩ 0 = .ok (.scalar 10) ∧
    Fish.get_range ⟨[], [], 10⟩ 0 ≠ .ok (.scalar (-1)) := by
  constructor
  · norm_num [Fish.get_range, bind, Except.bind, pure, Except.pure]
  · norm_num [Fish.get_range, bind, Except.bind, pure, Except.pure]

/-- C3 (amended): with no stored readings, the scalar getters
`Lure.get_range` and `Lure.get_ir_raw_value` return the sentinel `-1` for
every sensor id, while `Fish.get_range` returns `10` (its `-1` sentinel is
immediately rewritten by the below-`1e-6` correction). -/
theorem C3_empty_sentinel (raw rng : List ℚ) (ty : List Int) (mr : ℚ) (id : Int) :
    Lure.get_range ⟨[], raw⟩ id = .ok (.scalar (-1)) ∧
    Lure.get_ir_raw_value ⟨rng, []⟩ id = .ok (.scalar (-1)) ∧
    Fish.get_range ⟨[], ty, mr⟩ id = .ok (.scalar 10) := by
  refine ⟨rfl, rfl, ?_⟩
  norm_num [Fish.get_range, bind, Except.bind, pure, Except.pure]

/-- C7 fails as stated: `Lure.get_range` has no `ARRAY` branch, so with six
stored readings the reserved id `10000` is used as a plain index and raises
`IndexError` instead of returning the full sequence. -/
theorem C7_counterexample :
    Lure.get_range ⟨[1, 2, 3, 4, 5, 6], []⟩ Lure.ARRAY = .error .indexError ∧
    Lure.get_range ⟨[1, 2, 3, 4, 5, 6], []⟩ Lure.ARRAY
      ≠ .ok (.arr [1, 2, 3, 4, 5, 6]) := by
  constructor
  · rfl
  · simp [Lure.get_range, Lure.ARRAY, pyListGet, Functor.map, Except.map]

/-- C7 (amended): with readings present, `Fish.get_range` and
`Lure.get_ir_raw_value` called with the reserved `ARRAY` id (10000) return the
full ordered sequence of per-sensor values; `Lure.get_range` instead treats
`ARRAY` as a plain index and raises `IndexError` whenever the array holds at
most 10000 readings. -/
theorem C7_array_sentinel (fa : ObjectArray) (ra ra2 : RangeArray)
    (h1 : fa.range ≠ []) (h2 : ra.raw_value ≠ []) (h3 : ra2.range ≠ [])
    (h4 : ra2.range.length ≤ 10000) :
    Fish.get_range fa Fish.ARRAY = .ok (.arr fa.range) ∧
    Lure.get_ir_raw_value ra Lure.ARRAY = .ok (.arr ra.raw_value) ∧
    Lure.get_range ra2 Lure.ARRAY = .error .indexError := by
  refine ⟨?_, ?_, ?_⟩
  · simp [Fish.get_range, h1, bind, Except.bind, pure, Except.pure]
  · simp [Lure.get_ir_raw_value, h2, pure, Except.pure]
  · have hno : ¬ (0 ≤ Lure.ARRAY ∧ Lure.ARRAY.toNat < ra2.range.length) := by
      simp only [Lure.ARRAY]
      omega
    have hneg : ¬ ((Lure.ARRAY : Int) < 0 ∧ (-Lure.ARRAY).toNat ≤ ra2.range.length) := by
      simp only [Lure.ARRAY]
      omega
    unfold Lure.get_range
    rw [if_pos h3]
    unfold pyListGet
    rw [dif_neg hno, dif_neg hneg]
    rfl

/-- Witness for C7 (amended): six-element reading arrays. -/
theorem C7_array_sentinel_witness :
    Fish.get_range ⟨[1, 2, 3, 4, 5, 6], [], 10⟩ Fish.ARRAY
      = .ok (.arr [1, 2, 3, 4, 5, 6]) ∧
    Lure.get_ir_raw_value ⟨[], [7, 8, 9]⟩ Lure.ARRAY = .ok (.arr [7, 8, 9]) ∧
    Lure.get_range ⟨[1, 2, 3, 4, 5, 6], []⟩ Lure.ARRAY = .error .indexError :=
  C7_array_sentinel ⟨[1, 2, 3, 4, 5, 6], [], 10⟩ ⟨[], [7, 8, 9]⟩
    ⟨[1, 2, 3, 4, 5, 6], []⟩ (by simp) (by simp) (by simp) (by simp)

/-- `__write_to_log` never touches the connected flag. -/
lemma Lure_write_to_log_connected (st : LureState) (r : LogRecord) :
    (Lure.write_to_log st r).connected = st.connected := by
  unfold Lure.write_to_log
  split <;> rfl

/-- `__write_to_log` never touches the stop flag. -/
lemma Lure_write_to_log_stop (st : LureState) (r : LogRecord) :
    (Lure.write_to_log st r).stop = st.stop := by
  unfold Lure.write_to_log
  split <;> rfl

/-- `__write_to_log` never touches the stored IR readings. -/
lemma Lure_write_to_log_ir (st : LureState) (r : LogRecord) :
    (Lure.write_to_log st r).ir_range_readings = st.ir_range_readings := by
  unfold Lure.write_to_log
  split <;> rfl

/-- The dispatch section never modifies the connected flag. -/
lemma Lure_dispatch_connected {st : LureState} {f : Frame} {st' : LureState}
    (h : Lure.dispatch st f = .ok st') : st'.connected = st.connected := by
  unfold Lure.dispatch at h
  simp only [bind, Except.bind, pure, Except.pure] at h
  repeat' split at h
  all_goals cases h
  all_goals simp [Lure_write_to_log_connected]

/-- The dispatch section never modifies the stop flag. -/
lemma Lure_dispatch_stop {st : LureState} {f : Frame} {st' : LureState}
    (h : Lure.dispatch st f = .ok st') : st'.stop = st.stop := by
  unfold Lure.dispatch at h
  simp only [bind, Except.bind, pure, Except.pure] at h
  repeat' split at h
  all_goals cases h
  all_goals simp [Lure_write_to_log_stop]

/-- A successful receiver iteration always leaves the connected flag true. -/
lemma Lure_update_step_connected {st : LureState} {f : Frame} {p : Option PeerMsg}
    {st' : LureState} (h : Lure.update_step st f p = .ok st') :
    st'.connected = true := by
  unfold Lure.update_step at h
  simp only [bind, Except.bind] at h
  cases hd : Lure.dispatch { st with connected := true } f with
  | error e => rw [hd] at h; simp at h
  | ok v =>
    rw [hd] at h
    have hv : v.connected = true := by simpa using Lure_dispatch_connected hd
    cases p <;> simp only [pure, Except.pure] at h <;> cases h <;> simpa using hv

/-- Once connected, every successful run of the Lure receiver loop stays
connected. -/
lemma Lure_run_loop_connected (sched : List (Frame × Option PeerMsg)) :
    ∀ {st st' : LureState}, st.connected = true →
      Lure.run_loop st sched = .ok st' → st'.connected = true := by
  induction sched with
  | nil =>
    intro st st' hc h
    cases h
    exact hc
  | cons fp rest ih =>
    intro st st' hc h
    obtain ⟨f, p⟩ := fp
    unfold Lure.run_loop at h
    by_cases hs : st.stop = true
    · rw [if_pos hs] at h
      cases h
      exact hc
    · rw [if_neg hs] at h
      simp only [bind, Except.bind] at h
      cases hu : Lure.update_step st f p with
      | error e => rw [hu] at h; simp at h
      | ok v =>
        rw [hu] at h
        exact ih (Lure_update_step_connected hu) h

/-- A successful Fish receiver iteration always leaves the connected flag
true. -/
lemma Fish_update_step_connected {st : FishState} {f : Frame} {st' : FishState}
    (h : Fish.update_step st f = .ok st') : st'.connected = true := by
  unfold Fish.update_step at h
  simp only [bind, Except.bind, pure, Except.pure] at h
  repeat' split at h
  all_goals cases h
  all_goals rfl

/-- Once connected, every successful run of the Fish receiver loop stays
connected. -/
lemma Fish_run_loop_connected (sched : List Frame) :
    ∀ {st st' : FishState}, st.connected = true →
      Fish.run_loop st sched = .ok st' → st'.connected = true := by
  induction sched with
  | nil =>
    intro st st' hc h
    cases h
    exact hc
  | cons f rest ih =>
    intro st st' hc h
    unfold Fish.run_loop at h
    simp only [bind, Except.bind] at h
    cases hu : Fish.update_step st f with
    | error e => rw [hu] at h; simp at h
    | ok v =>
      rw [hu] at h
      exact ih (Fish_update_step_connected hu) h

/-- C4: the connected flag is a one-way latch: in both receiver loops (Lure
and Fish), once it is true, no subsequent successful loop step ever resets it
for the node's lifetime (and every loop step itself sets it to true on frame
receipt). -/
theorem C4_connected_latch (ls : LureState) (sched : List (Frame × Option PeerMsg))
    (ls' : LureState) (fs : FishState) (fsched : List Frame) (fs' : FishState)
    (hlc : ls.connected = true) (hlr : Lure.run_loop ls sched = .ok ls')
    (hfc : fs.connected = true) (hfr : Fish.run_loop fs fsched = .ok fs') :
    ls'.connected = true ∧ fs'.connected = true :=
  ⟨Lure_run_loop_connected sched hlc hlr, Fish_run_loop_connected fsched hfc hfr⟩

/-- Witness for C4: one-frame schedules for a connected Lure and a connected
Fish. -/
theorem C4_connected_latch_witness :
    (⟨"casu", true, false, ⟨[1], [2]⟩, ⟨[]⟩, [], [], [], false⟩ : LureState).connected
      = true ∧
    (⟨"fish", true, ⟨[1], [2], 3⟩, ⟨0, 0⟩, ⟨0, 0, 0⟩, ⟨0, 0⟩, ⟨⟨0, 0, 0⟩⟩,
      ⟨⟨0, 0, 0⟩⟩, ⟨[], []⟩, ⟨[], []⟩, []⟩ : FishState).connected = true :=
  C4_connected_latch
    ⟨"casu", true, false, ⟨[], []⟩, ⟨[]⟩, [], [], [], false⟩
    [(⟨"casu", "IR", "Ranges", .rangeArray ⟨[1], [2]⟩⟩, none)]
    ⟨"casu", true, false, ⟨[1], [2]⟩, ⟨[]⟩, [], [], [], false⟩
    ⟨"fish", true, ⟨[], [], 0⟩, ⟨0, 0⟩, ⟨0, 0, 0⟩, ⟨0, 0⟩, ⟨⟨0, 0, 0⟩⟩,
      ⟨⟨0, 0, 0⟩⟩, ⟨[], []⟩, ⟨[], []⟩, []⟩
    [⟨"fish", "Object", "Ranges", .objectArray ⟨[1], [2], 3⟩⟩]
    ⟨"fish", true, ⟨[1], [2], 3⟩, ⟨0, 0⟩, ⟨0, 0, 0⟩, ⟨0, 0⟩, ⟨⟨0, 0, 0⟩⟩,
      ⟨⟨0, 0, 0⟩⟩, ⟨[], []⟩, ⟨[], []⟩, []⟩
    rfl (by rfl) rfl (by rfl)

/-- Dispatch on a frame of unknown device (Lure): prints a notice, nothing
else changes. -/
lemma Lure_dispatch_unknown_dev (st : LureState) (f : Frame)
    (h1 : f.dev ≠ "IR") (h2 : f.dev ≠ "Acc") :
    Lure.dispatch st f = .ok { st with stdout := st.stdout ++
      ["Unknown device " ++ f.dev ++ " for " ++ st.name] } := by
  unfold Lure.dispatch
  rw [if_neg h1, if_neg h2]
  rfl

/-- Dispatch on an `IR` frame of unknown command (Lure): prints a notice,
nothing else changes. -/
lemma Lure_dispatch_unknown_ir_cmd (st : LureState) (f : Frame)
    (h1 : f.dev = "IR") (h2 : f.cmd ≠ "Ranges") :
    Lure.dispatch st f = .ok { st with stdout := st.stdout ++
      ["Unknown command " ++ f.cmd ++ " for " ++ st.name] } := by
  unfold Lure.dispatch
  rw [if_pos h1, if_neg h2]
  rfl

/-- Dispatch on an `Acc` frame of unknown command (Lure): the state is
returned entirely unchanged — in particular nothing is printed or logged. -/
lemma Lure_dispatch_unknown_acc_cmd (st : LureState) (f : Frame)
    (h1 : f.dev = "Acc") (h2 : f.cmd ≠ "Measurements") :
    Lure.dispatch st f = .ok st := by
  unfold Lure.dispatch
  rw [if_neg (by simp [h1]), if_pos h1, if_neg h2]
  rfl

/-- Dispatch on an `IR`/`Ranges` frame (Lure): the decoded array replaces the
stored readings, and two rows are logged. -/
lemma Lure_dispatch_ranges (st : LureState) (nm : String) (a : RangeArray) :
    Lure.dispatch st ⟨nm, "IR", "Ranges", .rangeArray a⟩ =
      .ok (Lure.write_to_log
        (Lure.write_to_log { st with ir_range_readings := a } ⟨"ir_range", a.range⟩)
        ⟨"ir_raw", a.raw_value⟩) := by
  unfold Lure.dispatch
  rfl

/-- C6 fails as stated: a frame with the unrecognized pair `(Acc, Bogus)` is
tolerated (readings unchanged, the loop continues) but is NOT reported: the
resulting state has an empty stdout and an empty log even though logging is
enabled. -/
theorem C6_counterexample :
    Lure.update_step ⟨"casu", false, false, ⟨[1], [2]⟩, ⟨[]⟩, [], [], [], true⟩
        ⟨"casu", "Acc", "Bogus", .str "junk"⟩ none
      = .ok ⟨"casu", true, false, ⟨[1], [2]⟩, ⟨[]⟩, [], [], [], true⟩ ∧
    (⟨"casu", true, false, ⟨[1], [2]⟩, ⟨[]⟩, [], [], [], true⟩ : LureState).stdout
      = [] ∧
    (⟨"casu", true, false, ⟨[1], [2]⟩, ⟨[]⟩, [], [], [], true⟩ : LureState).log
      = [] := by
  exact ⟨rfl, rfl, rfl⟩

/-- C6 (amended): a frame with an unrecognized `(device, command)` pair never
aborts the receiver: stored readings are unchanged and the loop continues (a
subsequent known frame is still decoded into the store, in both loops).  The
pair is reported via a printed notice whenever its branch has an else-clause:
an unknown device or an unknown command under `IR` in the Lure loop, and an
unknown command under any known device (`Object`, `Base`, `Light`, `Color`,
`Eye`) in the Fish loop; however an unknown command under `Acc` (Lure) and an
unknown device (Fish) are tolerated silently, with no report. -/
theorem C6_unknown_protocol_tolerance (st : LureState) (fs : FishState)
    (f g k m u v w x y : Frame) (a : RangeArray) (oa : ObjectArray)
    (hf1 : f.dev ≠ "IR") (hf2 : f.dev ≠ "Acc")
    (hg1 : g.dev = "IR") (hg2 : g.cmd ≠ "Ranges")
    (hk1 : k.dev = "Acc") (hk2 : k.cmd ≠ "Measurements")
    (hm1 : m.dev ≠ "Object") (hm2 : m.dev ≠ "Base") (hm3 : m.dev ≠ "Light")
    (hm4 : m.dev ≠ "Color") (hm5 : m.dev ≠ "Eye")
    (hu1 : u.dev = "Object") (hu2 : u.cmd ≠ "Ranges")
    (hv1 : v.dev = "Base") (hv2 : v.cmd ≠ "Enc") (hv3 : v.cmd ≠ "GroundTruth")
    (hv4 : v.cmd ≠ "VelRef")
    (hw1 : w.dev = "Light") (hw2 : w.cmd ≠ "Readings")
    (hx1 : x.dev = "Color") (hx2 : x.cmd ≠ "ColorVal")
    (hy1 : y.dev = "Eye") (hy2 : y.cmd ≠ "Left") (hy3 : y.cmd ≠ "Right")
    (hstop : st.stop = false) :
    Lure.update_step st f none = .ok { st with
      connected := true
      stdout := st.stdout ++ ["Unknown device " ++ f.dev ++ " for " ++ st.name] } ∧
    Lure.update_step st g none = .ok { st with
      connected := true
      stdout := st.stdout ++ ["Unknown command " ++ g.cmd ++ " for " ++ st.name] } ∧
    Lure.update_step st k none = .ok { st with connected := true } ∧
    Fish.update_step fs m = .ok { fs with connected := true } ∧
    Fish.update_step fs u = .ok { fs with
      connected := true
      stdout := fs.stdout ++ ["Unknown command " ++ u.cmd ++ " for " ++ fs.name] } ∧
    Fish.update_step fs v = .ok { fs with
      connected := true
      stdout := fs.stdout ++
        ["Unknown command " ++ v.cmd ++ " for Fish " ++ fs.name] } ∧
    Fish.update_step fs w = .ok { fs with
      connected := true
      stdout := fs.stdout ++
        ["Unknown command " ++ w.cmd ++ " for Fish " ++ fs.name] } ∧
    Fish.update_step fs x = .ok { fs with
      connected := true
      stdout := fs.stdout ++
        ["Unknown command " ++ x.cmd ++ " for Fish " ++ fs.name] } ∧
    Fish.update_step fs y = .ok { fs with
      connected := true
      stdout := fs.stdout ++
        ["Unknown command " ++ y.cmd ++ " for Fish " ++ fs.name] } ∧
    (Lure.run_loop st
        [(f, none), (⟨st.name, "IR", "Ranges", .rangeArray a⟩, none)]).map
      LureState.ir_range_readings = .ok a ∧
    (Fish.run_loop fs [m, ⟨fs.name, "Object", "Ranges", .objectArray oa⟩]).map
      FishState.object_readings = .ok oa := by
  have e1 : Lure.update_step st f none = .ok { st with
      connected := true
      stdout := st.stdout ++ ["Unknown device " ++ f.dev ++ " for " ++ st.name] } := by
    unfold Lure.update_step
    simp only [bind, Except.bind]
    rw [Lure_dispatch_unknown_dev _ f hf1 hf2]
    rfl
  have e3 : Fish.update_step fs m = .ok { fs with connected := true } := by
    simp only [Fish.update_step]
    rw [if_neg hm1, if_neg hm2, if_neg hm3, if_neg hm4, if_neg hm5]
    rfl
  refine ⟨e1, ?_, ?_, e3, ?_, ?_, ?_, ?_, ?_, ?_, ?_⟩
  · unfold Lure.update_step
    simp only [bind, Except.bind]
    rw [Lure_dispatch_unknown_ir_cmd _ g hg1 hg2]
    rfl
  · unfold Lure.update_step
    simp only [bind, Except.bind]
    rw [Lure_dispatch_unknown_acc_cmd _ k hk1 hk2]
    rfl
  · simp only [Fish.update_step]
    rw [if_pos hu1, if_neg hu2]
    rfl
  · simp only [Fish.update_step]
    rw [if_neg (by simp [hv1]), if_pos hv1, if_neg hv2, if_neg hv3, if_neg hv4]
    rfl
  · simp only [Fish.update_step]
    rw [if_neg (by simp [hw1]), if_neg (by simp [hw1]), if_pos hw1, if_neg hw2]
    rfl
  · simp only [Fish.update_step]
    rw [if_neg (by simp [hx1]), if_neg (by simp [hx1]), if_neg (by simp [hx1]),
      if_pos hx1, if_neg hx2]
    rfl
  · simp only [Fish.update_step]
    rw [if_neg (by simp [hy1]), if_neg (by simp [hy1]), if_neg (by simp [hy1]),
      if_neg (by simp [hy1]), if_pos hy1, if_neg hy2, if_neg hy3]
    rfl
  · have e2 : Lure.update_step { st with
        connected := true
        stdout := st.stdout ++ ["Unknown device " ++ f.dev ++ " for " ++ st.name] }
        ⟨st.name, "IR", "Ranges", .rangeArray a⟩ none =
      .ok (Lure.write_to_log (Lure.write_to_log
        { st with
          connected := true
          stdout := st.stdout ++ ["Unknown device " ++ f.dev ++ " for " ++ st.name]
          ir_range_readings := a } ⟨"ir_range", a.range⟩) ⟨"ir_raw", a.raw_value⟩) := by
      unfold Lure.update_step
      simp only [bind, Except.bind]
      rw [Lure_dispatch_ranges]
      rfl
    simp only [Lure.run_loop, bind, Except.bind, hstop]
    rw [e1]
    simp only [e2, Except.map, Lure_write_to_log_ir]
    simp [hstop, Lure_write_to_log_ir]
  · have e4 : Fish.update_step { fs with connected := true }
        ⟨fs.name, "Object", "Ranges", .objectArray oa⟩ =
      .ok { fs with
        connected := true
        object_readings := oa } := rfl
    simp only [Fish.run_loop, bind, Except.bind]
    rw [e3]
    simp only [e4, Except.map]

/-- Witness for C6: bogus frames against a Lure holding readings `⟨[1],[2]⟩`
and a fresh Fish, each followed by a known frame that still lands. -/
theorem C6_unknown_protocol_tolerance_witness :
    Lure.update_step ⟨"casu", false, false, ⟨[1], [2]⟩, ⟨[]⟩, [], [], [], false⟩
        ⟨"casu", "Bogus", "X", .str "d"⟩ none
      = .ok ⟨"casu", true, false, ⟨[1], [2]⟩, ⟨[]⟩, [],
          ["Unknown device Bogus for casu"], [], false⟩ ∧
    Lure.update_step ⟨"casu", false, false, ⟨[1], [2]⟩, ⟨[]⟩, [], [], [], false⟩
        ⟨"casu", "IR", "Bogus", .str "d"⟩ none
      = .ok ⟨"casu", true, false, ⟨[1], [2]⟩, ⟨[]⟩, [],
          ["Unknown command Bogus for casu"], [], false⟩ ∧
    Lure.update_step ⟨"casu", false, false, ⟨[1], [2]⟩, ⟨[]⟩, [], [], [], false⟩
        ⟨"casu", "Acc", "Bogus", .str "d"⟩ none
      = .ok ⟨"casu", true, false, ⟨[1], [2]⟩, ⟨[]⟩, [], [], [], false⟩ ∧
    Fish.update_step ⟨"fish", false, ⟨[], [], 0⟩, ⟨0, 0⟩, ⟨0, 0, 0⟩, ⟨0, 0⟩,
        ⟨⟨0, 0, 0⟩⟩, ⟨⟨0, 0, 0⟩⟩, ⟨[], []⟩, ⟨[], []⟩, []⟩
        ⟨"fish", "Bogus", "X", .str "d"⟩
      = .ok ⟨"fish", true, ⟨[], [], 0⟩, ⟨0, 0⟩, ⟨0, 0, 0⟩, ⟨0, 0⟩,
          ⟨⟨0, 0, 0⟩⟩, ⟨⟨0, 0, 0⟩⟩, ⟨[], []⟩, ⟨[], []⟩, []⟩ ∧
    Fish.update_step ⟨"fish", false, ⟨[], [], 0⟩, ⟨0, 0⟩, ⟨0, 0, 0⟩, ⟨0, 0⟩,
        ⟨⟨0, 0, 0⟩⟩, ⟨⟨0, 0, 0⟩⟩, ⟨[], []⟩, ⟨[], []⟩, []⟩
        ⟨"fish", "Object", "Bogus", .str "d"⟩
      = .ok ⟨"fish", true, ⟨[], [], 0⟩, ⟨0, 0⟩, ⟨0, 0, 0⟩, ⟨0, 0⟩,
          ⟨⟨0, 0, 0⟩⟩, ⟨⟨0, 0, 0⟩⟩, ⟨[], []⟩, ⟨[], []⟩,
          ["Unknown command Bogus for fish"]⟩ ∧
    Fish.update_step ⟨"fish", false, ⟨[], [], 0⟩, ⟨0, 0⟩, ⟨0, 0, 0⟩, ⟨0, 0⟩,
        ⟨⟨0, 0, 0⟩⟩, ⟨⟨0, 0, 0⟩⟩, ⟨[], []⟩, ⟨[], []⟩, []⟩
        ⟨"fish", "Base", "Bogus", .str "d"⟩
      = .ok ⟨"fish", true, ⟨[], [], 0⟩, ⟨0, 0⟩, ⟨0, 0, 0⟩, ⟨0, 0⟩,
          ⟨⟨0, 0, 0⟩⟩, ⟨⟨0, 0, 0⟩⟩, ⟨[], []⟩, ⟨[], []⟩,
          ["Unknown command Bogus for Fish fish"]⟩ ∧
    Fish.update_step ⟨"fish", false, ⟨[], [], 0⟩, ⟨0, 0⟩, ⟨0, 0, 0⟩, ⟨0, 0⟩,
        ⟨⟨0, 0, 0⟩⟩, ⟨⟨0, 0, 0⟩⟩, ⟨[], []⟩, ⟨[], []⟩, []⟩
        ⟨"fish", "Light", "Bogus", .str "d"⟩
      = .ok ⟨"fish", true, ⟨[], [], 0⟩, ⟨0, 0⟩, ⟨0, 0, 0⟩, ⟨0, 0⟩,
          ⟨⟨0, 0, 0⟩⟩, ⟨⟨0, 0, 0⟩⟩, ⟨[], []⟩, ⟨[], []⟩,
          ["Unknown command Bogus for Fish fish"]⟩ ∧
    Fish.update_step ⟨"fish", false, ⟨[], [], 0⟩, ⟨0, 0⟩, ⟨0, 0, 0⟩, ⟨0, 0⟩,
        ⟨⟨0, 0, 0⟩⟩, ⟨⟨0, 0, 0⟩⟩, ⟨[], []⟩, ⟨[], []⟩, []⟩
        ⟨"fish", "Color", "Bogus", .str "d"⟩
      = .ok ⟨"fish", true, ⟨[], [], 0⟩, ⟨0, 0⟩, ⟨0, 0, 0⟩, ⟨0, 0⟩,
          ⟨⟨0, 0, 0⟩⟩, ⟨⟨0, 0, 0⟩⟩, ⟨[], []⟩, ⟨[], []⟩,
          ["Unknown command Bogus for Fish fish"]⟩ ∧
    Fish.update_step ⟨"fish", false, ⟨[], [], 0⟩, ⟨0, 0⟩, ⟨0, 0, 0⟩, ⟨0, 0⟩,
        ⟨⟨0, 0, 0⟩⟩, ⟨⟨0, 0, 0⟩⟩, ⟨[], []⟩, ⟨[], []⟩, []⟩
        ⟨"fish", "Eye", "Bogus", .str "d"⟩
      = .ok ⟨"fish", true, ⟨[], [], 0⟩, ⟨0, 0⟩, ⟨0, 0, 0⟩, ⟨0, 0⟩,
          ⟨⟨0, 0, 0⟩⟩, ⟨⟨0, 0, 0⟩⟩, ⟨[], []⟩, ⟨[], []⟩,
          ["Unknown command Bogus for Fish fish"]⟩ ∧
    (Lure.run_loop ⟨"casu", false, false, ⟨[1], [2]⟩, ⟨[]⟩, [], [], [], false⟩
        [(⟨"casu", "Bogus", "X", .str "d"⟩, none),
         (⟨"casu", "IR", "Ranges", .rangeArray ⟨[9], [8]⟩⟩, none)]).map
      LureState.ir_range_readings = .ok ⟨[9], [8]⟩ ∧
    (Fish.run_loop ⟨"fish", false, ⟨[], [], 0⟩, ⟨0, 0⟩, ⟨0, 0, 0⟩, ⟨0, 0⟩,
        ⟨⟨0, 0, 0⟩⟩, ⟨⟨0, 0, 0⟩⟩, ⟨[], []⟩, ⟨[], []⟩, []⟩
        [⟨"fish", "Bogus", "X", .str "d"⟩,
         ⟨"fish", "Object", "Ranges", .objectArray ⟨[9], [8], 7⟩⟩]).map
      FishState.object_readings = .ok ⟨[9], [8], 7⟩ :=
  C6_unknown_protocol_tolerance
    ⟨"casu", false, false, ⟨[1], [2]⟩, ⟨[]⟩, [], [], [], false⟩
    ⟨"fish", false, ⟨[], [], 0⟩, ⟨0, 0⟩, ⟨0, 0, 0⟩, ⟨0, 0⟩,
      ⟨⟨0, 0, 0⟩⟩, ⟨⟨0, 0, 0⟩⟩, ⟨[], []⟩, ⟨[], []⟩, []⟩
    ⟨"casu", "Bogus", "X", .str "d"⟩
    ⟨"casu", "IR", "Bogus", .str "d"⟩
    ⟨"casu", "Acc", "Bogus", .str "d"⟩
    ⟨"fish", "Bogus", "X", .str "d"⟩
    ⟨"fish", "Object", "Bogus", .str "d"⟩
    ⟨"fish", "Base", "Bogus", .str "d"⟩
    ⟨"fish", "Light", "Bogus", .str "d"⟩
    ⟨"fish", "Color", "Bogus", .str "d"⟩
    ⟨"fish", "Eye", "Bogus", .str "d"⟩
    ⟨[9], [8]⟩ ⟨[9], [8], 7⟩
    (by decide) (by decide) (by decide) (by decide) (by decide) (by decide)
    (by decide) (by decide) (by decide) (by decide) (by decide) (by decide)
    (by decide) (by decide) (by decide) (by decide) (by decide) (by decide)
    (by decide) (by decide) (by decide) (by decide) (by decide) (by decide)
    rfl

/-- Recognizes a published `Off` frame for the given device among the events
of a trace. -/
def isOffPub (d : String) : Event → Bool
  | .pub f => f.dev == d && f.cmd == "Off"
  | _ => false

/-- Recognizes the stop-flag write among the events of a trace. -/
def isStopFlagEv : Event → Bool
  | .setStopFlag => true
  | _ => false

/-- C8: in every call to `Lure.stop`, at least one `Off` command is published
for each stateful actuator (vibration motor, speaker, light, diagnostic LED)
strictly before the stop flag is written, and the receiver thread is joined
only after the stop-flag write — so all actuator-off frames precede the
receiver observing the stop request. -/
theorem C8_shutdown_ordering (name : String) (le : Bool) :
    1 ≤ ((Lure.stop_events name le).takeWhile
          (fun e => !(isStopFlagEv e))).countP (isOffPub "VibeMotor") ∧
    1 ≤ ((Lure.stop_events name le).takeWhile
          (fun e => !(isStopFlagEv e))).countP (isOffPub "Speaker") ∧
    1 ≤ ((Lure.stop_events name le).takeWhile
          (fun e => !(isStopFlagEv e))).countP (isOffPub "Light") ∧
    1 ≤ ((Lure.stop_events name le).takeWhile
          (fun e => !(isStopFlagEv e))).countP (isOffPub "DiagnosticLed") ∧
    (Lure.stop_events name le).dropWhile (fun e => !(isStopFlagEv e)) =
      Event.setStopFlag ::
        (Lure.cleanup_events le ++ [Event.printLine (name ++ " disconnected!")]) ∧
    Event.joinThread ∈ Lure.cleanup_events le := by
  cases le <;>
    simp [Lure.stop_events, Lure.vibration_standby_events, Lure.light_standby_events,
      Lure.diagnostic_led_standby_events, Lure.cleanup_events, isOffPub, isStopFlagEv,
      List.takeWhile, List.dropWhile, List.countP, List.countP.go]
